import Mathlib

/-!
Verification of the go-tcp-over-google-iap relay client against its
specification.  The Go sources (package `iap`: `frame.go`, `iap-host.go`,
`tunnel.go`, `client.go`) are shallowly embedded below: byte slices become
`List Nat` (each element a byte value), Go's `binary.BigEndian` helpers
become `toBytesBE`/`readBE`, and the stateful tunnel code becomes explicit
state-passing functions.
-/

/-- ASCII byte values of a string (used only for ASCII literals, which is all
the repository's constant strings are). -/
def ascii (s : String) : List Nat := s.data.map Char.toNat

/-- Go `binary.BigEndian.PutUintN`: big-endian encoding of `v` into `w`
bytes, most significant byte first. -/
def toBytesBE : Nat → Nat → List Nat
  | 0, _ => []
  | w + 1, v => toBytesBE w (v / 256) ++ [v % 256]

/-- Go `binary.BigEndian.UintN`: big-endian decoding of a byte list. -/
def readBE (bs : List Nat) : Nat := bs.foldl (fun acc b => acc * 256 + b) 0

theorem length_toBytesBE (w v : Nat) : (toBytesBE w v).length = w := by
  induction w generalizing v with
  | zero => rfl
  | succ w ih => simp [toBytesBE, ih]

theorem mod_mul_decomp (a K : Nat) :
    a % (256 * K) = 256 * (a / 256 % K) + a % 256 := by
  conv_lhs => rw [← Nat.div_add_mod (a % (256 * K)) 256]
  rw [Nat.mod_mul_right_div_self, Nat.mod_mod_of_dvd _ ⟨K, rfl⟩]

theorem readBE_toBytesBE (w v : Nat) : readBE (toBytesBE w v) = v % 256 ^ w := by
  induction w generalizing v with
  | zero => simp [toBytesBE, readBE]; omega
  | succ w ih =>
    have h : readBE (toBytesBE w (v / 256) ++ [v % 256]) =
        readBE (toBytesBE w (v / 256)) * 256 + v % 256 := by
      simp [readBE, List.foldl_append]
    calc readBE (toBytesBE (w + 1) v)
        = readBE (toBytesBE w (v / 256)) * 256 + v % 256 := h
      _ = (v / 256 % 256 ^ w) * 256 + v % 256 := by rw [ih]
      _ = v % 256 ^ (w + 1) := by rw [pow_succ', mod_mul_decomp]; omega

/-! ## Constants (constants.go) -/

def MessageTagLen : Nat := 2
def MessageLen : Nat := 4
def DataMessageHeaderLen : Nat := MessageTagLen + MessageLen
def ACKLen : Nat := 8
def SIDLen : Nat := 4
def SIDHeaderLen : Nat := MessageTagLen + SIDLen
def ACKHeaderLen : Nat := MessageTagLen + ACKLen
def MaxMessageSize : Nat := 1024 * 16
def RelayConnectSuccessSID : Nat := 0x0001
def RelayReconnectSuccessACK : Nat := 0x0002
def RelayData : Nat := 0x0004
def RelayACK : Nat := 0x0007

/-! ## Frame codec (frame.go)

An `IncomingFrame` wraps a raw byte slice; its accessors read fixed-offset
big-endian fields.  Go's slice expressions `f.data[a:b]` become
`(data.drop a).take (b - a)`; the Go code panics when the slice is shorter
than the header, the model is applied only to frames at least as long as
the header they read (all frames in the claims are). -/

/-- `IncomingFrame.Type`: `binary.BigEndian.Uint16(f.data[:MessageTagLen])`. -/
def IncomingFrame.Type (data : List Nat) : Nat :=
  readBE (data.take MessageTagLen)

/-- `IncomingFrame.Data`: reads the 4-byte length at offset `MessageTagLen`,
then splits the bytes after the 6-byte header into `(payload, remainder)`:
`fullPayload[:msgLen], fullPayload[msgLen:]`. -/
def IncomingFrame.Data (data : List Nat) : List Nat × List Nat :=
  let msgLen := readBE ((data.drop MessageTagLen).take MessageLen)
  let fullPayload := data.drop DataMessageHeaderLen
  (fullPayload.take msgLen, fullPayload.drop msgLen)

/-- `IncomingFrame.ACK`: `binary.BigEndian.Uint64(f.data[MessageTagLen:ACKHeaderLen])`. -/
def IncomingFrame.ACK (data : List Nat) : Nat :=
  readBE ((data.drop MessageTagLen).take ACKLen)

/-- `NewDataFrame`: 2-byte tag `RelayData`, 4-byte big-endian payload length
(Go truncates `len(sendData)` to `uint32`), then the payload. -/
def NewDataFrame (sendData : List Nat) : List Nat :=
  toBytesBE MessageTagLen RelayData ++
    toBytesBE MessageLen (sendData.length % 2 ^ 32) ++ sendData

/-- `NewACKFrame`: 2-byte tag `RelayACK` then the 8-byte big-endian ACK value
(a Go `uint64`). -/
def NewACKFrame (inboundDataLen : Nat) : List Nat :=
  toBytesBE MessageTagLen RelayACK ++ toBytesBE ACKLen (inboundDataLen % 2 ^ 64)

theorem length_NewDataFrame (p : List Nat) :
    (NewDataFrame p).length = DataMessageHeaderLen + p.length := by
  simp [NewDataFrame, length_toBytesBE, DataMessageHeaderLen, MessageTagLen, MessageLen]
  omega

/-- Decoding the tag of an encoded DATA frame gives back `RelayData`. -/
theorem Type_NewDataFrame (p : List Nat) :
    IncomingFrame.Type (NewDataFrame p) = RelayData := by
  unfold IncomingFrame.Type NewDataFrame
  rw [List.append_assoc, List.take_left' (length_toBytesBE _ _), readBE_toBytesBE]
  rfl

/-- Decoding an encoded DATA frame recovers the payload and an empty
remainder, for any payload whose length fits in the 4-byte length field. -/
theorem Data_NewDataFrame (p : List Nat) (h : p.length < 2 ^ 32) :
    IncomingFrame.Data (NewDataFrame p) = (p, []) := by
  have hhdr :
      (toBytesBE MessageTagLen RelayData ++
        toBytesBE MessageLen (p.length % 2 ^ 32)).length = DataMessageHeaderLen := by
    simp [length_toBytesBE, DataMessageHeaderLen, MessageTagLen, MessageLen]
  have hmod : p.length % 2 ^ 32 % 256 ^ MessageLen = p.length := by
    have : (256 : Nat) ^ MessageLen = 2 ^ 32 := by norm_num [MessageLen]
    rw [this]; omega
  unfold IncomingFrame.Data NewDataFrame
  simp only [List.append_assoc]
  rw [List.drop_left' (length_toBytesBE _ _), List.take_left' (length_toBytesBE _ _),
    readBE_toBytesBE, hmod]
  rw [← List.append_assoc, List.drop_left' hhdr]
  rw [List.take_length, List.drop_length]

/-- Decoding the value field of an encoded ACK frame gives back the value,
for any value fitting a `uint64`. -/
theorem ACK_NewACKFrame (v : Nat) (h : v < 2 ^ 64) :
    IncomingFrame.ACK (NewACKFrame v) = v := by
  have hl : (toBytesBE ACKLen (v % 2 ^ 64)).length = ACKLen := length_toBytesBE _ _
  unfold IncomingFrame.ACK NewACKFrame
  rw [List.drop_left' (length_toBytesBE _ _), List.take_of_length_le (le_of_eq hl),
    readBE_toBytesBE]
  have : (256 : Nat) ^ ACKLen = 2 ^ 64 := by norm_num [ACKLen]
  rw [this]; omega

example : NewDataFrame (ascii "hello") =
    [0, 4, 0, 0, 0, 5, 104, 101, 108, 108, 111] := by decide
example : IncomingFrame.Data [0, 4, 0, 0, 0, 5, 104, 101, 108, 108, 111] =
    (ascii "hello", []) := by decide

/-! ## URL builder (iap-host.go)

`IAPHost` carries the five target-descriptor fields as byte strings.
`queryParams` mirrors `mapstructure.Decode` into a string map (here an
association list; Go map iteration order is irrelevant because
`url.Values.Encode` sorts the keys), and `valuesEncode` mirrors
`url.Values.Encode`: keys in ascending byte order, each value passed
through `url.QueryEscape`. -/

structure IAPHost where
  ProjectID : List Nat
  Zone : List Nat
  Instance : List Nat
  Interface : List Nat
  Port : List Nat
deriving DecidableEq

def IAPHostURL : List Nat := ascii "tunnel.cloudproxy.app"
def WebSocketProtocol : List Nat := ascii "wss"
def ConnectPath : List Nat := ascii "/v4/connect"
def ReconnectPath : List Nat := ascii "/v4/reconnect"

/-- A byte is untouched by Go's `url.QueryEscape` iff it is alphanumeric or
one of `-',' '_', '.', '~'`. -/
def isQueryUnreserved (c : Nat) : Bool :=
  (97 ≤ c && c ≤ 122) || (65 ≤ c && c ≤ 90) || (48 ≤ c && c ≤ 57) ||
    c == 45 || c == 95 || c == 46 || c == 126

/-- Upper-case hex digit byte for a value below 16 (Go's `"0123456789ABCDEF"`). -/
def hexDigitUpper (n : Nat) : Nat := if n < 10 then 48 + n else 55 + n

/-- Go `url.QueryEscape` over the bytes of a value: unreserved bytes kept,
space becomes `+`, everything else becomes `%XX`. -/
def queryEscape (bs : List Nat) : List Nat :=
  (bs.map fun c =>
    if isQueryUnreserved c then [c]
    else if c == 32 then [43]
    else [37, hexDigitUpper (c / 16), hexDigitUpper (c % 16)]).flatten

/-- Byte-string comparison used by Go when `url.Values.Encode` sorts keys. -/
def bytesLE : List Nat → List Nat → Bool
  | [], _ => true
  | _ :: _, [] => false
  | a :: as, b :: bs => if a < b then true else if b < a then false else bytesLE as bs

def insertByKey (p : List Nat × List Nat) :
    List (List Nat × List Nat) → List (List Nat × List Nat)
  | [] => [p]
  | q :: qs => if bytesLE p.1 q.1 then p :: q :: qs else q :: insertByKey p qs

def sortByKey : List (List Nat × List Nat) → List (List Nat × List Nat)
  | [] => []
  | p :: ps => insertByKey p (sortByKey ps)

def intercalateBytes (sep : List Nat) : List (List Nat) → List Nat
  | [] => []
  | [x] => x
  | x :: y :: rest => x ++ sep ++ intercalateBytes sep (y :: rest)

/-- Go `url.Values.Encode`: keys in ascending order, each emitted as
`key=QueryEscape(value)`, joined by `&`. -/
def valuesEncode (kvs : List (List Nat × List Nat)) : List Nat :=
  intercalateBytes (ascii "&")
    ((sortByKey kvs).map fun kv => kv.1 ++ ascii "=" ++ queryEscape kv.2)

/-- `queryParams` applied to `IAPHost` (the `mapstructure` field tags). -/
def queryParams (h : IAPHost) : List (List Nat × List Nat) :=
  [(ascii "project", h.ProjectID), (ascii "zone", h.Zone),
   (ascii "instance", h.Instance), (ascii "interface", h.Interface),
   (ascii "port", h.Port)]

/-- `tunnelURI`: `url.URL.String()` for scheme `wss`, host `IAPHostURL`, the
given path and the encoded query (always non-empty here). -/
def tunnelURI (path : List Nat) (kvs : List (List Nat × List Nat)) : List Nat :=
  WebSocketProtocol ++ ascii "://" ++ IAPHostURL ++ path ++ ascii "?" ++ valuesEncode kvs

def IAPHost.ConnectURI (h : IAPHost) : List Nat :=
  tunnelURI ConnectPath (queryParams h)

/-- `strconv.FormatUint(n, 10)` as bytes. -/
def decimalBytes (n : Nat) : List Nat := ascii (Nat.repr n)

/-- `IAPHost.ReconnectURI` (present in the source, never called by the
tunnel): `/v4/reconnect` with decimal `ack` and `sid` and the zone. -/
def IAPHost.ReconnectURI (h : IAPHost) (sid ack : Nat) : List Nat :=
  tunnelURI ReconnectPath
    [(ascii "ack", decimalBytes ack), (ascii "sid", decimalBytes sid),
     (ascii "zone", h.Zone)]

def demoHost : IAPHost :=
  { ProjectID := ascii "test-project", Zone := ascii "us-central1-a",
    Instance := ascii "test-instance", Interface := ascii "nic0",
    Port := ascii "8080" }

example : demoHost.ConnectURI = ascii
    "wss://tunnel.cloudproxy.app/v4/connect?instance=test-instance&interface=nic0&port=8080&project=test-project&zone=us-central1-a" := by
  decide
example : (IAPHost.ReconnectURI demoHost 12345 67890) = ascii
    "wss://tunnel.cloudproxy.app/v4/reconnect?ack=67890&sid=12345&zone=us-central1-a" := by
  decide

/-! ## Tunnel session state (tunnel.go)

`TunnelState` carries the `IAPTunnel` fields relevant to connect and
reconnect.  `connectOrReconnect` mirrors the Go function of the same name:
it zeroes `totalBytesReceived`, `totalBytesReceivedAcked` and
`totalBytesConfirmed` unconditionally and dials `t.host.ConnectURI()` —
the same dial is used for both the fresh connect and the reconnect path,
and `ReconnectURI` is never invoked. -/

structure TunnelState where
  host : IAPHost
  sid : List Nat
  totalBytesReceived : Nat
  totalBytesReceivedAcked : Nat
  totalBytesConfirmed : Nat
deriving DecidableEq

/-- `connectOrReconnect`: resets the three counters and dials the connect
URI; returns the new state and the dialed URL. -/
def connectOrReconnect (t : TunnelState) : TunnelState × List Nat :=
  ({ t with totalBytesReceived := 0, totalBytesReceivedAcked := 0,
            totalBytesConfirmed := 0 },
   t.host.ConnectURI)

/-- The reconnect branch of the read loop in `start`: after a WebSocket read
error that is not a normal closure, reconnect iff the context is live
(`ctx.Err() == nil`) and a session id has been captured (`t.sid != ""`);
the reconnect dial is `connectOrReconnect`. -/
def reconnectOnReadError (ctxLive : Bool) (t : TunnelState) :
    Option (TunnelState × List Nat) :=
  if ctxLive && !t.sid.isEmpty then some (connectOrReconnect t) else none

/-! ## Inbound DATA handling (tunnel.go handleData)

`handleData` first extracts `(data, rest)` from the frame, then logs
`frame.data[:20]` — a slice expression that reaches past the end of any
frame shorter than 20 bytes (Go panics there whenever the slice's capacity
equals its length; with a larger capacity it logs bytes that are not part
of the frame).  Only then does it enqueue the payload, add its length to
`totalBytesReceived` (a `uint64`), and emit an ACK frame when
`totalBytesReceived - totalBytesReceivedAcked > MaxMessageSize*2`
(Go `uint64` subtraction, modelled with `% 2 ^ 64`); when the send
succeeds, `totalBytesReceivedAcked` is set to `totalBytesReceived`.
The `data != nil` guard is always satisfied for frames produced by a
non-nil WebSocket message, so the model enqueues unconditionally. -/

structure RecvState where
  totalBytesReceived : Nat
  totalBytesReceivedAcked : Nat
  incoming : List (List Nat)
deriving DecidableEq

/-- The debug log in `handleData` evaluates `frame.data[:20]`; this flags the
frames for which that slice reaches past the end of the message. -/
def dataLogSliceOutOfBounds (frame : List Nat) : Bool := frame.length < 20

/-- The data path of `handleData` (enqueue, count, ACK cadence), after the
debug log.  `sendOk` tells whether the ACK send succeeds; on failure Go
returns early without updating `totalBytesReceivedAcked`. -/
def handleDataCore (sendOk : Bool) (st : RecvState) (frame : List Nat) :
    RecvState × Option (List Nat) :=
  let data := (IncomingFrame.Data frame).1
  let received := (st.totalBytesReceived + data.length) % 2 ^ 64
  if MaxMessageSize * 2 < (received + 2 ^ 64 - st.totalBytesReceivedAcked) % 2 ^ 64 then
    if sendOk then
      ({ totalBytesReceived := received, totalBytesReceivedAcked := received,
         incoming := st.incoming ++ [data] }, some (NewACKFrame received))
    else
      ({ st with totalBytesReceived := received,
                 incoming := st.incoming ++ [data] }, some (NewACKFrame received))
  else
    ({ st with totalBytesReceived := received,
               incoming := st.incoming ++ [data] }, none)

/-- Full `handleData`: `none` models the run that aborts at the
`frame.data[:20]` debug-log slice (a panic when the message slice is
exactly allocated); otherwise the data path runs. -/
def handleData (sendOk : Bool) (st : RecvState) (frame : List Nat) :
    Option (RecvState × Option (List Nat)) :=
  if dataLogSliceOutOfBounds frame then none
  else some (handleDataCore sendOk st frame)

/-! ## Reader (tunnel.go IAPTunnel.Read)

The reader first selects on `closed`/`ready` (modelled by the `closed`
flag; the claims concern reads after readiness), then serves the residual
`msgBuffer`, then dequeues from the `incoming` channel.  `ChanEvent` is
what the dequeue yields: a payload, or the channel found closed. -/

structure ReadState where
  msgBuffer : List Nat
  closed : Bool
deriving DecidableEq

inductive ChanEvent where
  | closedChan
  | msg (data : List Nat)
deriving DecidableEq

/-- `IAPTunnel.Read`: returns the bytes copied into the caller's buffer of
length `plen` and whether `io.EOF` was returned, plus the new state. -/
def IAPTunnel.Read (st : ReadState) (plen : Nat) (ev : ChanEvent) :
    (List Nat × Bool) × ReadState :=
  if st.closed then (([], true), st)
  else if 0 < st.msgBuffer.length then
    ((st.msgBuffer.take plen, false),
     { st with msgBuffer := st.msgBuffer.drop (min plen st.msgBuffer.length) })
  else
    match ev with
    | ChanEvent.closedChan => (([], true), st)
    | ChanEvent.msg data =>
      ((data.take plen, false),
       { st with msgBuffer := data.drop (min plen data.length) })

/-! ## Writer (frame.go DataFrame.Send, tunnel.go IAPTunnel.Write)

`DataFrame.Send` writes the frame to the WebSocket and then logs
`f.frame[:20]`.  The frame is allocated by `make([]byte, 6+len(data))`, so
its capacity equals its length and the slice panics whenever the frame is
shorter than 20 bytes; `Send` then never returns.  On the normal path it
returns `written - DataMessageHeaderLen`, the payload byte count. -/

/-- `DataFrame.Send` on a successful WebSocket write: `none` models the
panic at `f.frame[:20]` for frames shorter than 20 bytes. -/
def DataFrame.Send (frame : List Nat) : Option Nat :=
  if frame.length < 20 then none
  else some (frame.length - DataMessageHeaderLen)

/-- `IAPTunnel.Write`: fragments the payload into chunks of at most
`MaxMessageSize` bytes, sends each as one DATA frame, and accumulates the
payload bytes sent.  Returns the frames handed to `Send` in order, and
`some total` if the loop returns, `none` if a `Send` panics. -/
def IAPTunnel.Write (p : List Nat) : List (List Nat) × Option Nat :=
  if hp : p = [] then ([], some 0)
  else
    let chunk := p.take MaxMessageSize
    let frame := NewDataFrame chunk
    match DataFrame.Send frame with
    | none => ([frame], none)
    | some sent =>
      match IAPTunnel.Write (p.drop MaxMessageSize) with
      | (frames, res) => (frame :: frames, res.map (· + sent))
  termination_by p.length
  decreasing_by
    have hlen : 0 < p.length := List.length_pos.mpr hp
    simp [List.length_drop, MaxMessageSize]
    omega

/-! ## Close (tunnel.go IAPTunnel.Close) -/

structure CloseState where
  closedChan : Bool
  wsDialed : Bool
deriving DecidableEq

inductive CloseOutcome where
  /-- Close returned; the payload is the WebSocket close status sent, if a
  WebSocket had been dialed. -/
  | ok (wsCloseStatus : Option Nat)
  /-- Go run-time panic: `close` of an already-closed channel. -/
  | panicClosedChannel
deriving DecidableEq

/-- `IAPTunnel.Close`: `close(t.closed)` unconditionally (panics when the
channel is already closed), then closes the WebSocket with status 1000
when one was dialed. -/
def IAPTunnel.Close (st : CloseState) : CloseOutcome × CloseState :=
  if st.closedChan then (CloseOutcome.panicClosedChannel, st)
  else (CloseOutcome.ok (if st.wsDialed then some 1000 else none),
        { st with closedChan := true })

/-! ## Listener accept loop (client.go tcpListener.Accept)

Each element of the outcome list is the result of one underlying
`lis.Accept()` call.  `retryCount` is fixed to 3 by `newListener`;
`counter` is the listener's persistent retry counter.  The result carries
the sleep durations performed (Go sleeps `counter` seconds after each
transient failure while `counter < retryCount`) and the final counter. -/

inductive AcceptOutcome where
  | success
  | transientErr
  | closedErr
deriving DecidableEq

inductive AcceptResult where
  /-- a connection is returned (keep-alive enabled, counter reset) -/
  | conn
  /-- `failed to accept connection after retries: %w` is returned -/
  | wrappedErr
  /-- `isConnectionClosed`: the supervisor exits cleanly -/
  | listenerClosed
  /-- the outcome script ran out while Accept was still retrying -/
  | blocked
deriving DecidableEq

def tcpListenerAccept (retryCount : Nat) (counter : Nat) :
    List AcceptOutcome → AcceptResult × List Nat × Nat
  | [] => (AcceptResult.blocked, [], counter)
  | o :: rest =>
    match o with
    | AcceptOutcome.success => (AcceptResult.conn, [], 0)
    | AcceptOutcome.closedErr => (AcceptResult.listenerClosed, [], counter)
    | AcceptOutcome.transientErr =>
      if counter < retryCount then
        match tcpListenerAccept retryCount (counter + 1) rest with
        | (r, sleeps, c) => (r, (counter + 1) :: sleeps, c)
      else (AcceptResult.wrappedErr, [], counter)

/-! ## Byte-substring helper (for stating what a dial URL contains) -/

def isPrefixBytes : List Nat → List Nat → Bool
  | [], _ => true
  | _ :: _, [] => false
  | a :: as, b :: bs => a == b && isPrefixBytes as bs

def containsBytes (needle : List Nat) : List Nat → Bool
  | [] => isPrefixBytes needle []
  | b :: bs => isPrefixBytes needle (b :: bs) || containsBytes needle bs

/-! ## Claim theorems -/

def demoEstablished : TunnelState :=
  { host := demoHost, sid := ascii "S1", totalBytesReceived := 100,
    totalBytesReceivedAcked := 0, totalBytesConfirmed := 0 }

/-- C1: the claim says a read error after capturing sid `S` and `B` payload
bytes triggers a reconnect dial to `/v4/reconnect` with `sid=S` and
`ack=B`.  The code dials `t.host.ConnectURI()` on the reconnect path: the
dialed URL is the `/v4/connect` URL and carries neither `sid=` nor `ack=`,
even though the unused `ReconnectURI` (last conjunct, matching the
repository's own unit test) would produce the claimed URL. -/
theorem reconnect_dials_connect_uri :
    reconnectOnReadError true demoEstablished =
      some ({ demoEstablished with
                totalBytesReceived := 0,
                totalBytesReceivedAcked := 0,
                totalBytesConfirmed := 0 },
            demoHost.ConnectURI) ∧
    containsBytes (ascii "/v4/connect?") demoHost.ConnectURI = true ∧
    containsBytes (ascii "/v4/reconnect") demoHost.ConnectURI = false ∧
    containsBytes (ascii "sid=") demoHost.ConnectURI = false ∧
    containsBytes (ascii "ack=") demoHost.ConnectURI = false ∧
    IAPHost.ReconnectURI demoHost 12345 67890 = ascii
      "wss://tunnel.cloudproxy.app/v4/reconnect?ack=67890&sid=12345&zone=us-central1-a" := by
  decide

/-- C2: the claim says `totalBytesReceived` is not reset on a reconnect
dial.  `connectOrReconnect` zeroes it on every dial, also on the reconnect
path: starting from 100 received bytes, the state after the reconnect dial
has `totalBytesReceived = 0`. -/
theorem reconnect_resets_received_counter :
    demoEstablished.totalBytesReceived = 100 ∧
    (∀ t : TunnelState, (connectOrReconnect t).1.totalBytesReceived = 0 ∧
      (connectOrReconnect t).1.totalBytesReceivedAcked = 0 ∧
      (connectOrReconnect t).1.totalBytesConfirmed = 0) ∧
    (reconnectOnReadError true demoEstablished).map
      (fun r => r.1.totalBytesReceived) = some 0 := by
  exact ⟨rfl, fun t => ⟨rfl, rfl, rfl⟩, rfl⟩

def helloFrame : List Nat := NewDataFrame (ascii "hello")

/-- C3: the well-formed 11-byte DATA frame carrying `"hello"` decodes to
payload `"hello"` with empty remainder, the payload is enqueued and the
reader returns exactly it — but `handleData`'s debug log evaluates
`frame.data[:20]`, which reaches 9 bytes past the end of this frame
(`dataLogSliceOutOfBounds`), so processing is not free of out-of-bounds
accesses: Go panics there whenever the message slice's capacity equals its
length, and otherwise logs bytes that are not part of the frame. -/
theorem helloFrame_data_path_and_log_oob :
    helloFrame.length = 11 ∧
    IncomingFrame.Type helloFrame = RelayData ∧
    IncomingFrame.Data helloFrame = (ascii "hello", []) ∧
    dataLogSliceOutOfBounds helloFrame = true ∧
    handleData true { totalBytesReceived := 0, totalBytesReceivedAcked := 0,
                      incoming := [] } helloFrame = none ∧
    (handleDataCore true { totalBytesReceived := 0, totalBytesReceivedAcked := 0,
                           incoming := [] } helloFrame).1.incoming = [ascii "hello"] ∧
    (IAPTunnel.Read { msgBuffer := [], closed := false } 512
      (ChanEvent.msg (ascii "hello"))).1 = (ascii "hello", false) := by
  decide

/-- C6 counterexample: with an empty payload dequeued from the inbound
queue, `Read` returns zero bytes and no error — refuting "Read never
returns zero bytes with no error" as stated (which explicitly included
queued empty payloads and zero-length caller buffers). -/
theorem read_returns_zero_no_error_on_empty_payload :
    IAPTunnel.Read { msgBuffer := [], closed := false } 8 (ChanEvent.msg []) =
      (([], false), { msgBuffer := [], closed := false }) := by
  decide

/-- C6 amended: a zero-byte, no-error return from `Read` happens only when
the caller's buffer has length zero or when the residual buffer was empty
and the dequeued payload was itself empty; in every other case a zero-byte
return carries an error. -/
theorem read_zero_no_error_characterization (st : ReadState) (plen : Nat)
    (ev : ChanEvent)
    (hret : (IAPTunnel.Read st plen ev).1.1 = [] ∧
            (IAPTunnel.Read st plen ev).1.2 = false) :
    plen = 0 ∨ (st.msgBuffer = [] ∧ ev = ChanEvent.msg []) := by
  obtain ⟨h1, h2⟩ := hret
  unfold IAPTunnel.Read at h1 h2
  by_cases hc : st.closed
  · simp [hc] at h2
  · by_cases hb : 0 < st.msgBuffer.length
    · simp only [hc, hb, if_false, if_true, Bool.false_eq_true, if_neg, ite_true,
        ite_false, List.take_eq_nil_iff] at h1
      rcases h1 with h1 | h1
      · exact Or.inl h1
      · rw [h1] at hb; simp at hb
    · cases ev with
      | closedChan => simp [hc, hb] at h2
      | msg data =>
        simp only [hc, hb, List.take_eq_nil_iff, if_neg, ite_false, Bool.false_eq_true] at h1
        have hbuf : st.msgBuffer = [] := by
          cases hbe : st.msgBuffer with
          | nil => rfl
          | cons a l => rw [hbe] at hb; simp at hb
        rcases h1 with h1 | h1
        · exact Or.inl h1
        · exact Or.inr ⟨hbuf, by rw [h1]⟩

theorem read_zero_no_error_characterization_witness :
    ((IAPTunnel.Read { msgBuffer := [], closed := false } 8
        (ChanEvent.msg [])).1.1 = [] ∧
     (IAPTunnel.Read { msgBuffer := [], closed := false } 8
        (ChanEvent.msg [])).1.2 = false) ∧
    ((8 : Nat) = 0 ∨ (({ msgBuffer := [], closed := false } : ReadState).msgBuffer = [] ∧
      ChanEvent.msg [] = ChanEvent.msg [])) :=
  ⟨by decide, read_zero_no_error_characterization
    { msgBuffer := [], closed := false } 8 (ChanEvent.msg []) (by decide)⟩

/-- C7 counterexample: three consecutive transient accept failures do not
make `Accept` return the wrapped error — after the third failure the loop
is still retrying (first conjunct), and a following successful accept
returns the connection with no error (second conjunct), having slept
1, 2, 3 seconds. -/
theorem accept_three_failures_not_an_error :
    tcpListenerAccept 3 0
      [AcceptOutcome.transientErr, AcceptOutcome.transientErr,
       AcceptOutcome.transientErr] = (AcceptResult.blocked, [1, 2, 3], 3) ∧
    tcpListenerAccept 3 0
      [AcceptOutcome.transientErr, AcceptOutcome.transientErr,
       AcceptOutcome.transientErr, AcceptOutcome.success] =
      (AcceptResult.conn, [1, 2, 3], 0) := by
  decide

/-- C7 amended: the wrapped error is returned on the fourth consecutive
transient accept failure (the first three are retried, the k-th retry
sleeping k seconds, k = 1, 2, 3); a single failure followed by a
successful accept returns the connection without error and resets the
retry counter to zero. -/
theorem accept_retry_bound :
    (∀ rest, tcpListenerAccept 3 0
      (AcceptOutcome.transientErr :: AcceptOutcome.transientErr ::
       AcceptOutcome.transientErr :: AcceptOutcome.transientErr :: rest) =
      (AcceptResult.wrappedErr, [1, 2, 3], 3)) ∧
    tcpListenerAccept 3 0 [AcceptOutcome.transientErr, AcceptOutcome.success] =
      (AcceptResult.conn, [1], 0) := by
  exact ⟨fun rest => rfl, rfl⟩

/-- C8: for every payload `p` with `|p| ≤ MaxMessageSize`, decoding the
encoded DATA frame of `p` yields the tag `0x0004`, the payload `p`, and an
empty remainder. -/
theorem dataFrame_roundtrip (p : List Nat) (h : p.length ≤ MaxMessageSize) :
    IncomingFrame.Type (NewDataFrame p) = 0x0004 ∧
    IncomingFrame.Data (NewDataFrame p) = (p, []) := by
  refine ⟨Type_NewDataFrame p, Data_NewDataFrame p ?_⟩
  calc p.length ≤ MaxMessageSize := h
    _ < 2 ^ 32 := by norm_num [MaxMessageSize]

theorem dataFrame_roundtrip_witness :
    (ascii "hello").length ≤ MaxMessageSize ∧
    (IncomingFrame.Type (NewDataFrame (ascii "hello")) = 0x0004 ∧
     IncomingFrame.Data (NewDataFrame (ascii "hello")) = (ascii "hello", [])) :=
  ⟨by decide, dataFrame_roundtrip (ascii "hello") (by decide)⟩

/-- C9: for every target descriptor with all five fields set, the connect
URL is `wss://tunnel.cloudproxy.app/v4/connect?` followed by the query
string `instance=<i>&interface=<n>&port=<p>&project=<pr>&zone=<z>`, keys
in ascending (alphabetical) order, values percent-encoded by
`url.QueryEscape`. -/
theorem connectURI_canonical (h : IAPHost)
    (hp : h.ProjectID ≠ []) (hz : h.Zone ≠ []) (hi : h.Instance ≠ [])
    (hn : h.Interface ≠ []) (hpt : h.Port ≠ []) :
    h.ConnectURI =
      ascii "wss://tunnel.cloudproxy.app/v4/connect?instance=" ++ (queryEscape h.Instance ++
      (ascii "&interface=" ++ (queryEscape h.Interface ++
      (ascii "&port=" ++ (queryEscape h.Port ++
      (ascii "&project=" ++ (queryEscape h.ProjectID ++
      (ascii "&zone=" ++ queryEscape h.Zone)))))))) := by
  have hsort : sortByKey (queryParams h) =
      [(ascii "instance", h.Instance), (ascii "interface", h.Interface),
       (ascii "port", h.Port), (ascii "project", h.ProjectID),
       (ascii "zone", h.Zone)] := rfl
  simp only [IAPHost.ConnectURI, tunnelURI, valuesEncode, hsort, List.map,
    intercalateBytes, List.append_assoc]
  rfl

theorem connectURI_canonical_witness :
    demoHost.ProjectID ≠ [] ∧ demoHost.Zone ≠ [] ∧ demoHost.Instance ≠ [] ∧
    demoHost.Interface ≠ [] ∧ demoHost.Port ≠ [] ∧
    demoHost.ConnectURI =
      ascii "wss://tunnel.cloudproxy.app/v4/connect?instance=" ++ (queryEscape demoHost.Instance ++
      (ascii "&interface=" ++ (queryEscape demoHost.Interface ++
      (ascii "&port=" ++ (queryEscape demoHost.Port ++
      (ascii "&project=" ++ (queryEscape demoHost.ProjectID ++
      (ascii "&zone=" ++ queryEscape demoHost.Zone)))))))) :=
  ⟨by decide, by decide, by decide, by decide, by decide,
   connectURI_canonical demoHost (by decide) (by decide) (by decide)
     (by decide) (by decide)⟩

/-- C10: `Close` is not idempotent.  On a tunnel whose `closed` channel is
not yet closed, `Close` closes it (and the WebSocket with status 1000 when
one was dialed) and returns; calling `Close` again on the resulting state
hits Go's close-of-closed-channel panic. -/
theorem close_not_idempotent (st : CloseState) (h : st.closedChan = false) :
    (IAPTunnel.Close st).1 =
      CloseOutcome.ok (if st.wsDialed then some 1000 else none) ∧
    (IAPTunnel.Close st).2.closedChan = true ∧
    (IAPTunnel.Close (IAPTunnel.Close st).2).1 =
      CloseOutcome.panicClosedChannel := by
  unfold IAPTunnel.Close
  simp [h]

theorem close_not_idempotent_witness :
    ({ closedChan := false, wsDialed := true } : CloseState).closedChan = false ∧
    ((IAPTunnel.Close { closedChan := false, wsDialed := true }).1 =
      CloseOutcome.ok (if ({ closedChan := false, wsDialed := true } : CloseState).wsDialed
        then some 1000 else none) ∧
     (IAPTunnel.Close { closedChan := false, wsDialed := true }).2.closedChan = true ∧
     (IAPTunnel.Close
        (IAPTunnel.Close { closedChan := false, wsDialed := true }).2).1 =
      CloseOutcome.panicClosedChannel) :=
  ⟨by decide, close_not_idempotent { closedChan := false, wsDialed := true } (by decide)⟩

/-- The conclusion of the ACK-cadence claim as one characterization of the
`handleData` data path when the ACK send succeeds: the payload is
enqueued, `totalBytesReceived` grows by its length, an ACK frame is
emitted iff the strict threshold `MaxMessageSize * 2` is exceeded, that
frame decodes to the new `totalBytesReceived`, and exactly on emission
`totalBytesReceivedAcked` is set to `totalBytesReceived`. -/
def ackCadenceSpec (st : RecvState) (frame : List Nat) : Prop :=
  let data := (IncomingFrame.Data frame).1
  let received := st.totalBytesReceived + data.length
  let emit := MaxMessageSize * 2 < received - st.totalBytesReceivedAcked
  handleDataCore true st frame =
    ({ totalBytesReceived := received,
       totalBytesReceivedAcked :=
         if emit then received else st.totalBytesReceivedAcked,
       incoming := st.incoming ++ [data] },
     if emit then some (NewACKFrame received) else none) ∧
  (handleDataCore true st frame).2.map IncomingFrame.ACK =
    (if emit then some received else none)

/-- C4: under the session invariant `acked ≤ received` (which every run
from the zeroed post-dial state maintains, since `acked` is only ever set
to `received`) and absence of `uint64` overflow, one inbound DATA frame
makes `handleData` emit an ACK exactly when `received - acked` strictly
exceeds `MaxMessageSize * 2 = 32768`, the ACK carrying the updated
`received`, and exactly then `acked` is set to `received`; no ACK is
emitted otherwise. -/
theorem ack_cadence (st : RecvState) (frame : List Nat)
    (hinv : st.totalBytesReceivedAcked ≤ st.totalBytesReceived)
    (hof : st.totalBytesReceived + (IncomingFrame.Data frame).1.length < 2 ^ 64) :
    ackCadenceSpec st frame := by
  unfold ackCadenceSpec handleDataCore
  have hmod1 : (st.totalBytesReceived + (IncomingFrame.Data frame).1.length) % 2 ^ 64 =
      st.totalBytesReceived + (IncomingFrame.Data frame).1.length :=
    Nat.mod_eq_of_lt hof
  have hmod2 : (st.totalBytesReceived + (IncomingFrame.Data frame).1.length +
      2 ^ 64 - st.totalBytesReceivedAcked) % 2 ^ 64 =
      st.totalBytesReceived + (IncomingFrame.Data frame).1.length -
        st.totalBytesReceivedAcked := by
    omega
  simp only [hmod1, hmod2]
  by_cases hemit : MaxMessageSize * 2 <
      st.totalBytesReceived + (IncomingFrame.Data frame).1.length -
        st.totalBytesReceivedAcked
  · simp only [hemit, if_pos, if_true, ite_true, Option.map_some]
    refine ⟨trivial, ?_⟩
    exact congrArg some (ACK_NewACKFrame _ hof)
  · simp only [hemit, if_neg, ite_false, Option.map_none]
    exact ⟨trivial, rfl⟩

theorem ack_cadence_witness :
    (0 : Nat) ≤ 32764 ∧
    32764 + (IncomingFrame.Data helloFrame).1.length < 2 ^ 64 ∧
    ackCadenceSpec { totalBytesReceived := 32764, totalBytesReceivedAcked := 0,
                     incoming := [] } helloFrame :=
  ⟨by decide, by decide,
   ack_cadence { totalBytesReceived := 32764, totalBytesReceivedAcked := 0,
                 incoming := [] } helloFrame (by decide) (by decide)⟩

/-- Unfolding one `Write` iteration on a payload of at least
`MaxMessageSize` bytes: a full-size DATA frame is sent and the loop
continues on the rest, adding `MaxMessageSize` to the returned count. -/
theorem write_step_full (n x : Nat) (hn : MaxMessageSize ≤ n) :
    IAPTunnel.Write (List.replicate n x) =
      (NewDataFrame (List.replicate MaxMessageSize x) ::
         (IAPTunnel.Write (List.replicate (n - MaxMessageSize) x)).1,
       ((IAPTunnel.Write (List.replicate (n - MaxMessageSize) x)).2).map
         (· + MaxMessageSize)) := by
  have h0 : 0 < n := lt_of_lt_of_le (by norm_num [MaxMessageSize]) hn
  have hne : List.replicate n x ≠ [] := by
    simp
    omega
  rw [IAPTunnel.Write]
  rw [dif_neg hne]
  rw [List.take_replicate, List.drop_replicate]
  have hmin : min MaxMessageSize n = MaxMessageSize := Nat.min_eq_left hn
  rw [hmin]
  have hsend : DataFrame.Send (NewDataFrame (List.replicate MaxMessageSize x)) =
      some MaxMessageSize := by
    unfold DataFrame.Send
    rw [length_NewDataFrame, List.length_replicate]
    norm_num [DataMessageHeaderLen, MessageTagLen, MessageLen, MaxMessageSize]
  rcases hW : IAPTunnel.Write (List.replicate (n - MaxMessageSize) x) with ⟨frames, res⟩
  simp only [hsend, hW]

/-- Unfolding `Write` on a final chunk shorter than 14 bytes: the 6-byte
header plus the chunk stays below 20 bytes, so `Send`'s debug-log slice
`f.frame[:20]` is out of bounds for the exactly-allocated frame and the
call panics instead of returning. -/
theorem write_step_small (n x : Nat) (h0 : 0 < n)
    (hsmall : DataMessageHeaderLen + n < 20) :
    IAPTunnel.Write (List.replicate n x) =
      ([NewDataFrame (List.replicate n x)], none) := by
  have hn14 : n < 14 := by
    simp [DataMessageHeaderLen, MessageTagLen, MessageLen] at hsmall
    omega
  have hne : List.replicate n x ≠ [] := by simp; omega
  rw [IAPTunnel.Write, dif_neg hne]
  rw [List.take_replicate]
  have hmin : min MaxMessageSize n = n := by
    apply Nat.min_eq_right
    simp [MaxMessageSize]
    omega
  rw [hmin]
  have hsend : DataFrame.Send (NewDataFrame (List.replicate n x)) = none := by
    unfold DataFrame.Send
    rw [length_NewDataFrame, List.length_replicate, if_pos hsmall]
  simp only [hsend]

/-- C5: writing a payload of `3 * MaxMessageSize + 7` bytes fragments it
into chunks of sizes `MaxMessageSize, MaxMessageSize, MaxMessageSize, 7`
(second conjunct: the four frames carry exactly those payload sizes), but
`Write` never returns `3 * MaxMessageSize + 7`: the fourth frame is 13
bytes long, and `DataFrame.Send`'s debug log slices it to 20 bytes —
out of bounds for the exactly-allocated frame, a Go run-time panic —
so `Write` panics (`none`) instead of returning the byte count. -/
theorem write_3M7_four_frames_then_panic (x : Nat) :
    IAPTunnel.Write (List.replicate (3 * MaxMessageSize + 7) x) =
      ([NewDataFrame (List.replicate MaxMessageSize x),
        NewDataFrame (List.replicate MaxMessageSize x),
        NewDataFrame (List.replicate MaxMessageSize x),
        NewDataFrame (List.replicate 7 x)], none) ∧
    [NewDataFrame (List.replicate MaxMessageSize x),
     NewDataFrame (List.replicate MaxMessageSize x),
     NewDataFrame (List.replicate MaxMessageSize x),
     NewDataFrame (List.replicate 7 x)].map
        (fun f => (IncomingFrame.Data f).1.length) =
      [MaxMessageSize, MaxMessageSize, MaxMessageSize, 7] := by
  constructor
  · have e1 : 3 * MaxMessageSize + 7 - MaxMessageSize = 2 * MaxMessageSize + 7 := by
      norm_num [MaxMessageSize]
    have e2 : 2 * MaxMessageSize + 7 - MaxMessageSize = MaxMessageSize + 7 := by
      norm_num [MaxMessageSize]
    have e3 : MaxMessageSize + 7 - MaxMessageSize = 7 := by
      norm_num [MaxMessageSize]
    rw [write_step_full _ x (by norm_num [MaxMessageSize]), e1,
        write_step_full _ x (by norm_num [MaxMessageSize]), e2,
        write_step_full _ x (by norm_num [MaxMessageSize]), e3,
        write_step_small 7 x (by norm_num)
          (by norm_num [DataMessageHeaderLen, MessageTagLen, MessageLen])]
    rfl
  · have hd1 : IncomingFrame.Data (NewDataFrame (List.replicate MaxMessageSize x)) =
        (List.replicate MaxMessageSize x, []) :=
      Data_NewDataFrame _ (by rw [List.length_replicate]; norm_num [MaxMessageSize])
    have hd2 : IncomingFrame.Data (NewDataFrame (List.replicate 7 x)) =
        (List.replicate 7 x, []) :=
      Data_NewDataFrame _ (by rw [List.length_replicate]; norm_num)
    simp only [List.map_cons, List.map_nil, hd1, hd2, List.length_replicate]
